import Mathlib

/-!
Verification of the buffer-registry, handle-guard, status-translation and
callback-wrapping logic of the ps6000a mid-level driver (src/ps6000a/).

The Python code is shallowly embedded: each mid-level method of the
`PS6000A` class becomes a Lean function over an explicit session state.
The vendor driver (the `ll` / `functions.py` boundary) only contributes an
integer status per call, so each embedded method takes that status as an
explicit oracle argument; the local validation that `functions.py` performs
before reaching the driver is embedded as well.

Python dictionaries are modelled as insertion-ordered association lists
(Python dicts never hold duplicate keys, so replacing every occurrence of a
key coincides with replacing its unique occurrence).  Python sets of
`Buffer` objects are modelled as duplicate-free-up-to-`pyBeq` lists, where
`pyBeq` is the dataclass equality of `buffers.py` (the `buffer` field is
declared `compare=False`, so equality ignores the underlying array).
Exceptions become `Except`; a raising method returns the state as it was at
the moment of the raise, since Python mutations performed before an
exception persist.
-/

set_option autoImplicit false

namespace PS6000ASpec

/-! ## Constants (src/ps6000a/constants.py)

Channels and downsampling modes are opaque closed value sets; they are
modelled as `Nat` tags.  `PicoDataType` needs its element byte width
(`ctype` property) for the size validation in `functions.set_data_buffers`,
so it is an explicit enumeration. -/

abbrev PicoChannel := Nat

abbrev PicoRatioMode := Nat

inductive PicoDataType where
  | INT8_T
  | INT16_T
  | INT32_T
  | UINT32_T
  | INT64_T
  deriving DecidableEq, Repr

/-- Byte width of the element ctype (`PicoDataType.ctype` in constants.py). -/
def PicoDataType.ctypeSize : PicoDataType → Nat
  | .INT8_T => 1
  | .INT16_T => 2
  | .INT32_T => 4
  | .UINT32_T => 4
  | .INT64_T => 8

/-- Status codes (`PicoStatus`).  The enumeration is consumed as an opaque
value set; only the three distinguished members are needed. -/
abbrev PicoStatus := Int

def PicoStatus.OK : PicoStatus := 0

def PicoStatus.NOT_YET_RUN : PicoStatus := -1

def PicoStatus.WAITING_FOR_DATA_BUFFERS : PicoStatus := 0x197

/-- Flag values of `PicoAction` (constants.py). -/
def PicoAction.CLEAR_ALL : Nat := 0x1

def PicoAction.ADD : Nat := 0x2

/-! ## Buffers (src/ps6000a/buffers.py) -/

/-- A ctypes array: identity (address), element count, element byte width. -/
structure CArray where
  addr : Nat
  len : Nat
  elemSize : Nat
  deriving DecidableEq, Repr

/-- Total byte size of the array (`ctypes.sizeof`). -/
def CArray.byteSize (a : CArray) : Nat := a.len * a.elemSize

inductive BufferMaxMin where
  | MAX
  | MIN
  deriving DecidableEq, Repr

structure BufferClass where
  channel : PicoChannel
  datatype : PicoDataType
  segment : Nat
  deriving DecidableEq, Repr

structure Buffer where
  buffer : CArray
  channel : PicoChannel
  datatype : PicoDataType
  segment : Nat
  downsampling_mode : PicoRatioMode
  max_min : BufferMaxMin
  deriving DecidableEq, Repr

def Buffer.buffer_class (b : Buffer) : BufferClass :=
  ⟨b.channel, b.datatype, b.segment⟩

/-- The comparing fields of the frozen dataclass (everything except the
`compare=False` array field). -/
def Buffer.attrs (b : Buffer) :
    PicoChannel × PicoDataType × Nat × PicoRatioMode × BufferMaxMin :=
  (b.channel, b.datatype, b.segment, b.downsampling_mode, b.max_min)

/-- Python `==` on `Buffer` (array field excluded by `compare=False`). -/
def Buffer.pyBeq (a b : Buffer) : Bool := decide (a.attrs = b.attrs)

theorem Buffer.pyBeq_refl (a : Buffer) : a.pyBeq a = true := by
  simp [Buffer.pyBeq]

theorem Buffer.pyBeq_symm {a b : Buffer} (h : a.pyBeq b = true) :
    b.pyBeq a = true := by
  simp [Buffer.pyBeq] at h ⊢
  exact h.symm

theorem Buffer.pyBeq_trans {a b c : Buffer} (h1 : a.pyBeq b = true)
    (h2 : b.pyBeq c = true) : a.pyBeq c = true := by
  simp [Buffer.pyBeq] at h1 h2 ⊢
  exact h1.trans h2

/-! ## Python set of buffers, as a list with `pyBeq` identification -/

/-- Membership test (`in`) for a Python set of buffers. -/
def pmem (b : Buffer) (s : List Buffer) : Bool :=
  s.any (fun x => x.pyBeq b)

/-- Python `set.add`: keeps the already-stored element when an equal one exists. -/
def PSet.add (s : List Buffer) (b : Buffer) : List Buffer :=
  if pmem b s then s else s ++ [b]

/-- Python `set.remove`: raises `KeyError` when the element is missing. -/
def PSet.remove (s : List Buffer) (b : Buffer) : Except Unit (List Buffer) :=
  if pmem b s then .ok (s.filter (fun x => !(x.pyBeq b))) else .error ()

/-! ## Python dict as insertion-ordered association list -/

section PyDict

variable {K V : Type} [DecidableEq K]

/-- Plain dict lookup: first (unique) matching entry. -/
def pyFind (d : List (K × V)) (k : K) : Option V :=
  match d with
  | [] => none
  | p :: rest => if p.1 = k then some p.2 else pyFind rest k

/-- Assignment to a key already present (replaces the entry in place). -/
def pySet (d : List (K × V)) (k : K) (v : V) : List (K × V) :=
  d.map (fun p => if p.1 = k then (k, v) else p)

/-- Read access of `defaultdict`: returns the stored value, or inserts the
default at the end (Python dicts are insertion-ordered). -/
def pyGetD (d : List (K × V)) (k : K) (dflt : V) : V × List (K × V) :=
  match pyFind d k with
  | some v => (v, d)
  | none => (dflt, d ++ [(k, dflt)])

/-- Read the (vivified) entry, mutate the retrieved object in place. -/
def pyModify (d : List (K × V)) (k : K) (dflt : V) (f : V → V) :
    List (K × V) :=
  let p := pyGetD d k dflt
  pySet p.2 k (f p.1)

end PyDict

/-! ## Exceptions (src/ps6000a/exceptions.py) and validation errors -/

/-- Exceptions that the embedded methods can raise.  `statusError` and
`handleError` come from exceptions.py; `valueError` / `typeError` are the
local validation errors of ps6000a.py and functions.py; `keyError` is the
built-in exception raised by `set.remove` on a missing element. -/
inductive PicoErr where
  | statusError (status : PicoStatus)
  | handleError (held : Option Int)
  | valueError (msg : String)
  | typeError (msg : String)
  | keyError
  deriving DecidableEq, Repr

/-- Local validation errors (not device-reported). -/
def PicoErr.isValidation : PicoErr → Bool
  | .valueError _ => true
  | .typeError _ => true
  | _ => false

/-- The three message cases distinguished by the `PicoHandleError`
constructor (exceptions.py lines 45-62); constructing it with a valid
handle is itself an internal error. -/
inductive HandleErrKind where
  | neverOpened
  | openFailed
  | noDeviceFound
  | validHandleBug
  deriving DecidableEq, Repr

def picoHandleErrorKind (held : Option Int) : HandleErrKind :=
  match held with
  | none => .neverOpened
  | some h =>
    if h < 0 then .openFailed
    else if h = 0 then .noDeviceFound
    else .validHandleBug

/-! ## Session state (class PS6000A, ps6000a.py) -/

abbrev Registry := List (BufferClass × List Buffer)

structure PS6000A where
  raw_handle : Option Int
  last_status : PicoStatus
  buffers : Registry
  deriving DecidableEq, Repr

/-- State built by `PS6000A.__init__`. -/
def PS6000A.mkInit : PS6000A :=
  { raw_handle := none, last_status := PicoStatus.NOT_YET_RUN, buffers := [] }

/-- Validity test of the held handle (`PicoHandle.valid`, types.py). -/
def handleValid (st : PS6000A) : Bool :=
  match st.raw_handle with
  | some h => decide (0 < h)
  | none => false

/-- Property `PS6000A.handle` (ps6000a.py lines 90-103). -/
def PS6000A.handle (st : PS6000A) : Except PicoErr Int :=
  match st.raw_handle with
  | some h => if 0 < h then .ok h else .error (.handleError (some h))
  | none => .error (.handleError none)

/-- Method `PS6000A._verify_status` (ps6000a.py lines 105-121): records the
status, then raises on anything but OK.  The returned pair is the updated
state and the raised exception, if any. -/
def PS6000A.verify_status (st : PS6000A) (status : PicoStatus) :
    PS6000A × Option PicoErr :=
  let st2 := { st with last_status := status }
  if status = PicoStatus.OK then (st2, none)
  else (st2, some (.statusError status))

/-! ## Device boundary (src/ps6000a/functions.py)

Each low-level wrapper performs local ctypes validation, calls the opaque
driver, and returns the driver's status.  The driver's answer is an oracle
argument `devStatus`. -/

/-- Function `functions.set_data_buffers` (functions.py lines 966-1052).
The local `TypeError` validation precedes the driver call; the action flags
are forwarded untouched and the driver's status is returned verbatim. -/
def ll_set_data_buffers (devStatus : PicoStatus)
    (buffer_max buffer_min : Option CArray) (data_type : PicoDataType)
    (_action : Nat) : Except PicoErr PicoStatus :=
  if buffer_min.isSome && buffer_max.isNone then
    .error (.typeError "Cannot set min buffer without max buffer.")
  else
    match buffer_max with
    | none => .ok devStatus
    | some m =>
      let n_samples := m.len
      if m.byteSize ≠ n_samples * data_type.ctypeSize then
        .error (.typeError "Buffer (max) size mismatch, is data type wrong?")
      else
        match buffer_min with
        | none => .ok devStatus
        | some mn =>
          if m.len ≠ mn.len then
            .error (.typeError "Buffer min vs. max size mismatch.")
          else if mn.byteSize ≠ n_samples * data_type.ctypeSize then
            .error (.typeError "Buffer (min) size mismatch, is data type wrong?")
          else .ok devStatus

/-! ## Buffer registry methods (ps6000a.py) -/

/-- Method `PS6000A.set_data_buffers` (ps6000a.py lines 917-988).  Order of
effects, as in the source: min/max compatibility validation, handle check,
driver call (with its own validation), status verification (which records
`last_status`), then and only then the registry mutations. -/
def PS6000A.set_data_buffers (st : PS6000A) (devStatus : PicoStatus)
    (buffer_max : Buffer) (buffer_min : Option Buffer)
    (clear_others : Bool) : Except (PicoErr × PS6000A) PS6000A :=
  let checked : Except PicoErr (Option CArray) :=
    match buffer_min with
    | none => .ok none
    | some bmin =>
      if bmin.buffer_class ≠ buffer_max.buffer_class then
        .error (.valueError "Both min and max buffers must have same buffer class.")
      else if bmin.downsampling_mode ≠ buffer_max.downsampling_mode then
        .error (.valueError "Both min and max buffers must have same downsampling mode.")
      else .ok (some bmin.buffer)
  match checked with
  | .error e => .error (e, st)
  | .ok buffer_min_raw =>
    match st.handle with
    | .error e => .error (e, st)
    | .ok _ =>
      let action :=
        if clear_others then PicoAction.ADD ||| PicoAction.CLEAR_ALL
        else PicoAction.ADD
      match ll_set_data_buffers devStatus (some buffer_max.buffer)
          buffer_min_raw buffer_max.datatype action with
      | .error e => .error (e, st)
      | .ok status =>
        let v := st.verify_status status
        match v.2 with
        | some e => .error (e, v.1)
        | none =>
          let bc := buffer_max.buffer_class
          let st3 :=
            if clear_others then
              { v.1 with buffers := pyModify v.1.buffers bc [] (fun _ => []) }
            else v.1
          let st4 :=
            { st3 with buffers :=
                pyModify st3.buffers bc [] (fun s => PSet.add s buffer_max) }
          match buffer_min with
          | some bmin =>
            let st5 :=
              { st4 with buffers :=
                  pyModify st4.buffers bc [] (fun s => PSet.add s bmin) }
            .ok st5
          | none => .ok st4

/-- Method `PS6000A.clear_data_buffers` (ps6000a.py lines 990-1024): driver
call with two null buffers and CLEAR_ALL, status verification, then the
registry set for exactly that class is emptied. -/
def PS6000A.clear_data_buffers (st : PS6000A) (devStatus : PicoStatus)
    (channel : PicoChannel) (data_type : PicoDataType) (segment : Nat) :
    Except (PicoErr × PS6000A) PS6000A :=
  match st.handle with
  | .error e => .error (e, st)
  | .ok _ =>
    match ll_set_data_buffers devStatus none none data_type
        PicoAction.CLEAR_ALL with
    | .error e => .error (e, st)
    | .ok status =>
      let v := st.verify_status status
      match v.2 with
      | some e => .error (e, v.1)
      | none =>
        let bc : BufferClass := ⟨channel, data_type, segment⟩
        .ok { v.1 with buffers := pyModify v.1.buffers bc [] (fun _ => []) }

/-- Method `PS6000A.get_existing_data_buffers` (ps6000a.py lines
1026-1046): a plain read of the defaultdict, which inserts an empty set
when the class is missing; the possibly-grown registry is returned as the
second component. -/
def PS6000A.get_existing_data_buffers (st : PS6000A) (channel : PicoChannel)
    (data_type : PicoDataType) (segment : Nat) : List Buffer × PS6000A :=
  let bc : BufferClass := ⟨channel, data_type, segment⟩
  let p := pyGetD st.buffers bc []
  (p.1, { st with buffers := p.2 })

/-- Filter tests of `get_all_existing_data_buffers`: does the buffer fail
the given (optional) channel / datatype / segment filter? -/
def failsChannel (channel : Option PicoChannel) (b : Buffer) : Bool :=
  match channel with
  | some c => decide (b.channel ≠ c)
  | none => false

def failsDatatype (data_type : Option PicoDataType) (b : Buffer) : Bool :=
  match data_type with
  | some dtt => decide (b.datatype ≠ dtt)
  | none => false

def failsSegment (segment : Option Nat) (b : Buffer) : Bool :=
  match segment with
  | some sg => decide (b.segment ≠ sg)
  | none => false

def matchesFilters (channel : Option PicoChannel)
    (data_type : Option PicoDataType) (segment : Option Nat)
    (b : Buffer) : Bool :=
  !(failsChannel channel b) && !(failsDatatype data_type b)
    && !(failsSegment segment b)

/-- Number of given filters the buffer fails. -/
def failCount (channel : Option PicoChannel)
    (data_type : Option PicoDataType) (segment : Option Nat)
    (b : Buffer) : Nat :=
  (cond (failsChannel channel b) 1 0)
    + (cond (failsDatatype data_type b) 1 0)
    + (cond (failsSegment segment b) 1 0)

/-- One conditional removal of the query loop body: propagate an already
raised exception, otherwise remove the buffer when the filter failed
(`set.remove` raising KeyError on a missing element). -/
def removeIf (cond : Bool) (s : Except PicoErr (List Buffer)) (b : Buffer) :
    Except PicoErr (List Buffer) :=
  match s with
  | .error e => .error e
  | .ok out =>
    if cond then (PSet.remove out b).mapError (fun _ => PicoErr.keyError)
    else .ok out

/-- Loop body of `get_all_existing_data_buffers` (ps6000a.py lines
1073-1082): the buffer is added to the output set, then removed once per
given filter it fails, each failing filter performing its own
`set.remove`.  A second removal of the same element raises `KeyError`. -/
def gaedbStep (channel : Option PicoChannel)
    (data_type : Option PicoDataType) (segment : Option Nat)
    (out : List Buffer) (b : Buffer) : Except PicoErr (List Buffer) :=
  removeIf (failsSegment segment b)
    (removeIf (failsDatatype data_type b)
      (removeIf (failsChannel channel b) (.ok (PSet.add out b)) b) b) b

/-- Buffers of the whole registry in iteration order
(`self.buffers.values()` does not vivify anything). -/
def PS6000A.allBuffers (st : PS6000A) : List Buffer :=
  (st.buffers.map (fun p => p.2)).flatten

/-- Method `PS6000A.get_all_existing_data_buffers` (ps6000a.py lines
1048-1083).  The source only reads the registry (no vivification, no
assignment), so the embedding returns the output set alone. -/
def PS6000A.get_all_existing_data_buffers (st : PS6000A)
    (channel : Option PicoChannel) (data_type : Option PicoDataType)
    (segment : Option Nat) : Except PicoErr (List Buffer) :=
  st.allBuffers.foldlM (gaedbStep channel data_type segment) []

/-! ## Max/min pairing (ps6000a.py lines 1085-1129) -/

abbrev PairKey := PicoChannel × PicoDataType × Nat × PicoRatioMode

def Buffer.pairKey (b : Buffer) : PairKey :=
  (b.channel, b.datatype, b.segment, b.downsampling_mode)

/-- Loop body filling the `pairs` defaultdict (ps6000a.py lines
1109-1121).  Note that the source writes the buffer into slot 0 of the
two-element list in BOTH the MAX branch (line 1117) and the MIN branch
(line 1119); slot 1 is never written. -/
def pairsStep (d : List (PairKey × (Option Buffer × Option Buffer)))
    (b : Buffer) : List (PairKey × (Option Buffer × Option Buffer)) :=
  match b.max_min with
  | .MAX => pyModify d b.pairKey (none, none) (fun p => (some b, p.2))
  | .MIN => pyModify d b.pairKey (none, none) (fun p => (some b, p.2))

/-- Python tuple equality on an output pair (component-wise dataclass
equality). -/
def pairPyBeq (p q : Buffer × Option Buffer) : Bool :=
  p.1.pyBeq q.1 &&
    (match p.2, q.2 with
      | none, none => true
      | some a, some b => a.pyBeq b
      | _, _ => false)

/-- Python `set.add` on the output set of pairs. -/
def PPSet.add (s : List (Buffer × Option Buffer)) (p : Buffer × Option Buffer) :
    List (Buffer × Option Buffer) :=
  if s.any (fun q => pairPyBeq q p) then s else s ++ [p]

/-- Method `PS6000A.get_existing_data_buffer_pairs` (ps6000a.py lines
1085-1129).  The channel/datatype/segment arguments are unused by the
source loop, which iterates over every registered buffer; a pair entry
with an empty MAX slot is only warned about and skipped. -/
def PS6000A.get_existing_data_buffer_pairs (st : PS6000A)
    (_channel : PicoChannel) (_data_type : PicoDataType) (_segment : Nat) :
    List (Buffer × Option Buffer) :=
  let pairs := st.allBuffers.foldl pairsStep []
  pairs.foldl
    (fun out kp =>
      match kp.2.1 with
      | none => out
      | some buffer_max => PPSet.add out (buffer_max, kp.2.2))
    []

/-! ## Streaming poll (ps6000a.py lines 1259-1299) -/

/-- Relevant fields of `PicoStreamingDataInfo` as prepared by the caller
(`Buffer.empty_streaming_info`, buffers.py). -/
structure StreamingDataInfo where
  channel : PicoChannel
  mode : PicoRatioMode
  datatype : PicoDataType
  deriving DecidableEq, Repr

def Buffer.empty_streaming_info (b : Buffer) : StreamingDataInfo :=
  ⟨b.channel, b.downsampling_mode, b.datatype⟩

/-- Driver-filled output structures are opaque tokens. -/
abbrev FilledInfo := Nat

abbrev FilledTriggerInfo := Nat

/-- Method `PS6000A.get_streaming_latest_values` (ps6000a.py lines
1259-1299).  The driver's status and the structures it fills are oracle
arguments.  `last_status` is recorded directly; `WAITING_FOR_DATA_BUFFERS`
becomes the boolean full flag instead of an exception; every other non-OK
status raises. -/
def PS6000A.get_streaming_latest_values (st : PS6000A)
    (devStatus : PicoStatus) (infoOut : List FilledInfo)
    (trigOut : List FilledTriggerInfo)
    (streaming_data_info : Option (List StreamingDataInfo)) :
    Except (PicoErr × PS6000A)
      ((Bool × List FilledInfo × List FilledTriggerInfo) × PS6000A) :=
  match st.handle with
  | .error e => .error (e, st)
  | .ok _ =>
    let sdiBuilt : Except PicoErr (List StreamingDataInfo) :=
      match streaming_data_info with
      | some l => .ok l
      | none =>
        match st.get_all_existing_data_buffers none none (some 0) with
        | .error e => .error e
        | .ok bufs => .ok (bufs.map Buffer.empty_streaming_info)
    match sdiBuilt with
    | .error e => .error (e, st)
    | .ok _ =>
      let st2 := { st with last_status := devStatus }
      if devStatus ≠ PicoStatus.OK ∧
          devStatus ≠ PicoStatus.WAITING_FOR_DATA_BUFFERS then
        .error (.statusError devStatus, st2)
      else
        .ok ((decide (devStatus = PicoStatus.WAITING_FOR_DATA_BUFFERS),
          infoOut, trigOut), st2)

/-! ## Session open/close (ps6000a.py lines 123-206 and 298-312) -/

/-- Observable events of the open flows: the warning log line and the
driver calls issued, in order. -/
inductive Ev where
  | warnAlreadyOpen
  | callCloseUnit
  | callOpenUnit
  | callOpenUnitAsync
  | callOpenUnitProgress
  deriving DecidableEq, Repr

/-- Method `PS6000A.close_unit` (ps6000a.py lines 298-312): on success the
stored handle is cleared unconditionally. -/
def PS6000A.close_unit (st : PS6000A) (devStatus : PicoStatus) :
    Except (PicoErr × PS6000A) PS6000A :=
  match st.handle with
  | .error e => .error (e, st)
  | .ok _ =>
    let v := st.verify_status devStatus
    match v.2 with
    | some e => .error (e, v.1)
    | none => .ok { v.1 with raw_handle := none }

/-- Shared tail of `open_unit` after the optional close: driver call
returns (status, handle); verify, then store the handle and report its
validity. -/
def openUnitFinish (st : PS6000A) (openStatus : PicoStatus)
    (devHandle : Int) : Except (PicoErr × PS6000A) (Bool × PS6000A) :=
  let v := st.verify_status openStatus
  match v.2 with
  | some e => .error (e, v.1)
  | none => .ok (decide (0 < devHandle), { v.1 with raw_handle := some devHandle })

/-- Method `PS6000A.open_unit` (ps6000a.py lines 123-152): when a valid
handle is already held, warns and closes the existing session before the
driver open call. -/
def PS6000A.open_unit (st : PS6000A) (closeStatus openStatus : PicoStatus)
    (devHandle : Int) :
    List Ev × Except (PicoErr × PS6000A) (Bool × PS6000A) :=
  if handleValid st then
    match st.close_unit closeStatus with
    | .error e2 => ([.warnAlreadyOpen, .callCloseUnit], .error e2)
    | .ok st2 =>
      ([.warnAlreadyOpen, .callCloseUnit, .callOpenUnit],
        openUnitFinish st2 openStatus devHandle)
  else
    ([.callOpenUnit], openUnitFinish st openStatus devHandle)

/-- Method `PS6000A.open_unit_async` (ps6000a.py lines 154-183): when a
valid handle is already held it only logs the warning - it does NOT close
the existing session - then starts the asynchronous open.  The stored
handle is never touched. -/
def PS6000A.open_unit_async (st : PS6000A) (devStatus : PicoStatus)
    (status2 : Bool) :
    List Ev × Except (PicoErr × PS6000A) (Bool × PS6000A) :=
  let evs :=
    if handleValid st then [Ev.warnAlreadyOpen, Ev.callOpenUnitAsync]
    else [Ev.callOpenUnitAsync]
  let v := st.verify_status devStatus
  match v.2 with
  | some e => (evs, .error (e, v.1))
  | none => (evs, .ok (status2, v.1))

/-- Shared tail of `open_unit_progress`: verify, then store the handle
only when the open operation reports completion. -/
def openUnitProgressFinish (st : PS6000A) (progStatus : PicoStatus)
    (devHandle : Int) (complete : Bool) :
    Except (PicoErr × PS6000A) (Bool × PS6000A) :=
  let v := st.verify_status progStatus
  match v.2 with
  | some e => .error (e, v.1)
  | none =>
    let st2 := if complete then { v.1 with raw_handle := some devHandle } else v.1
    .ok (complete && decide (0 < devHandle), st2)

/-- Method `PS6000A.open_unit_progress` (ps6000a.py lines 185-206): when a
valid handle is already held, warns and closes before polling the
asynchronous open. -/
def PS6000A.open_unit_progress (st : PS6000A)
    (closeStatus progStatus : PicoStatus) (devHandle : Int)
    (complete : Bool) :
    List Ev × Except (PicoErr × PS6000A) (Bool × PS6000A) :=
  if handleValid st then
    match st.close_unit closeStatus with
    | .error e2 => ([.warnAlreadyOpen, .callCloseUnit], .error e2)
    | .ok st2 =>
      ([.warnAlreadyOpen, .callCloseUnit, .callOpenUnitProgress],
        openUnitProgressFinish st2 progStatus devHandle complete)
  else
    ([.callOpenUnitProgress],
      openUnitProgressFinish st progStatus devHandle complete)

/-! ## Block-ready trampoline wrapper (src/ps6000a/callbacks.py 74-96)

Callback objects and trampolines are identified by Python object identity,
modelled as `Nat` tokens.  `wrap_block_ready` stores the trampoline as a
hidden attribute on the callback object itself; the attribute table maps
callback identity to the retained trampoline identity, and `fresh` is the
allocator for newly created trampoline objects. -/

structure CBWorld where
  attr : List (Nat × Nat)
  fresh : Nat
  deriving DecidableEq, Repr

/-- Function `wrap_block_ready` (callbacks.py lines 74-96): return the
already-stored trampoline if the hidden attribute exists, otherwise create
a fresh trampoline, store it on the callback, and return it. -/
def wrap_block_ready (w : CBWorld) (cb : Nat) : Nat × CBWorld :=
  match pyFind w.attr cb with
  | some t => (t, w)
  | none =>
    (w.fresh, { attr := w.attr ++ [(cb, w.fresh)], fresh := w.fresh + 1 })

/-- Well-formedness of the attribute world: every stored trampoline was
allocated below `fresh`, and no two attribute entries share a trampoline. -/
def CBWorld.wf (w : CBWorld) : Prop :=
  (∀ p ∈ w.attr, p.2 < w.fresh) ∧
    w.attr.Pairwise (fun p q => p.2 ≠ q.2)


/-! ## Lemmas about the Python collection semantics -/

theorem pmem_append (b : Buffer) (s t : List Buffer) :
    pmem b (s ++ t) = (pmem b s || pmem b t) := by
  simp [pmem, List.any_append]

theorem pmem_single (b x : Buffer) : pmem x [b] = b.pyBeq x := by
  simp [pmem]

theorem pmem_add (b x : Buffer) (s : List Buffer) :
    pmem x (PSet.add s b) = (pmem x s || b.pyBeq x) := by
  unfold PSet.add
  by_cases h : pmem b s = true
  · rw [if_pos h]
    cases hbx : b.pyBeq x with
    | true =>
      have hxs : pmem x s = true := by
        unfold pmem at h ⊢
        simp only [List.any_eq_true] at h ⊢
        obtain ⟨y, hy, hyb⟩ := h
        exact ⟨y, hy, Buffer.pyBeq_trans hyb hbx⟩
      simp [hxs]
    | false => simp
  · rw [if_neg h, pmem_append, pmem_single]

section PyDictLemmas

variable {K V : Type} [DecidableEq K]

theorem pyFind_cons (p : K × V) (rest : List (K × V)) (k : K) :
    pyFind (p :: rest) k = if p.1 = k then some p.2 else pyFind rest k := rfl

theorem pySet_cons (p : K × V) (rest : List (K × V)) (k : K) (v : V) :
    pySet (p :: rest) k v =
      (if p.1 = k then (k, v) else p) :: pySet rest k v := rfl

theorem pyFind_append (d1 d2 : List (K × V)) (k : K) :
    pyFind (d1 ++ d2) k =
      (match pyFind d1 k with
        | some v => some v
        | none => pyFind d2 k) := by
  induction d1 with
  | nil => simp [pyFind]
  | cons p rest ih =>
    by_cases h : p.1 = k
    · simp [pyFind, h]
    · simp [pyFind, h, ih]

theorem pyFind_pySet_self (d : List (K × V)) (k : K) (v w : V)
    (h : pyFind d k = some w) : pyFind (pySet d k v) k = some v := by
  induction d with
  | nil => simp [pyFind] at h
  | cons p rest ih =>
    rw [pySet_cons, pyFind_cons]
    by_cases hp : p.1 = k
    · simp [hp]
    · rw [pyFind_cons, if_neg hp] at h
      simp only [hp, if_false]
      exact ih h

theorem pyFind_pySet_other (d : List (K × V)) (k k2 : K) (v : V)
    (h : k2 ≠ k) : pyFind (pySet d k v) k2 = pyFind d k2 := by
  have hk : k ≠ k2 := fun he => h he.symm
  induction d with
  | nil => simp [pyFind, pySet]
  | cons p rest ih =>
    rw [pySet_cons, pyFind_cons, pyFind_cons]
    by_cases hp : p.1 = k
    · rw [if_pos hp]
      have hpk2 : ¬p.1 = k2 := by rw [hp]; exact hk
      simp only [hk, if_false, if_neg hpk2]
      simpa [hk] using ih
    · rw [if_neg hp]
      by_cases hp2 : p.1 = k2
      · simp [hp2]
      · simp only [if_neg hp2]
        exact ih

theorem pyFind_pyModify_self (d : List (K × V)) (k : K) (dflt : V)
    (f : V → V) :
    pyFind (pyModify d k dflt f) k = some (f (pyGetD d k dflt).1) := by
  unfold pyModify pyGetD
  cases h : pyFind d k with
  | some v => simpa using pyFind_pySet_self d k (f v) v h
  | none =>
    have hfind : pyFind (d ++ [(k, dflt)]) k = some dflt := by
      simp [pyFind_append, h, pyFind]
    simpa using pyFind_pySet_self (d ++ [(k, dflt)]) k (f dflt) dflt hfind

theorem pyFind_pyModify_other (d : List (K × V)) (k k2 : K) (dflt : V)
    (f : V → V) (h : k2 ≠ k) :
    pyFind (pyModify d k dflt f) k2 = pyFind d k2 := by
  unfold pyModify pyGetD
  cases hf : pyFind d k with
  | some v => simpa using pyFind_pySet_other d k k2 (f v) h
  | none =>
    have hk : ¬k = k2 := fun he => h he.symm
    have hset := pyFind_pySet_other (d ++ [(k, dflt)]) k k2 (f dflt) h
    simp only [hset, pyFind_append, pyFind, hk, if_false]
    cases pyFind d k2 <;> simp

theorem pyFind_single (k k2 : K) (v : V) :
    pyFind [(k, v)] k2 = if k = k2 then some v else none := rfl

theorem pyFind_mem {d : List (K × V)} {k : K} {v : V}
    (h : pyFind d k = some v) : (k, v) ∈ d := by
  induction d with
  | nil => simp [pyFind] at h
  | cons p rest ih =>
    rw [pyFind_cons] at h
    by_cases hp : p.1 = k
    · rw [if_pos hp] at h
      have hpv : p = (k, v) := by
        cases p
        simp only [Option.some.injEq] at h
        simp only at hp
        simp [hp, h]
      rw [hpv]
      exact List.mem_cons_self _ _
    · rw [if_neg hp] at h
      exact List.mem_cons_of_mem _ (ih h)

theorem pyFind_none_not_mem {d : List (K × V)} {k : K}
    (h : pyFind d k = none) (v : V) : (k, v) ∉ d := by
  induction d with
  | nil => simp
  | cons p rest ih =>
    rw [pyFind_cons] at h
    by_cases hp : p.1 = k
    · rw [if_pos hp] at h
      exact absurd h (by simp)
    · rw [if_neg hp] at h
      intro hmem
      rcases List.mem_cons.mp hmem with he | hm
      · exact hp (by rw [← he])
      · exact ih h hm

end PyDictLemmas


theorem pmem_cons (b x : Buffer) (s : List Buffer) :
    pmem x (b :: s) = (b.pyBeq x || pmem x s) := by
  simp [pmem]

theorem pmem_nil (x : Buffer) : pmem x [] = false := rfl

/-- The filter outcome only depends on the comparing fields, so dataclass
equality preserves it. -/
theorem matchesFilters_congr (channel : Option PicoChannel)
    (data_type : Option PicoDataType) (segment : Option Nat)
    {a b : Buffer} (h : a.pyBeq b = true) :
    matchesFilters channel data_type segment a
      = matchesFilters channel data_type segment b := by
  simp only [Buffer.pyBeq, Buffer.attrs, decide_eq_true_eq, Prod.mk.injEq] at h
  obtain ⟨h1, h2, h3, _, _⟩ := h
  simp [matchesFilters, failsChannel, failsDatatype, failsSegment, h1, h2, h3]

/-- A valid session handle makes the handle property return it. -/
theorem handle_ok_of_valid {st : PS6000A} (h : handleValid st = true) :
    ∃ n, st.raw_handle = some n ∧ 0 < n ∧ st.handle = .ok n := by
  unfold handleValid at h
  cases hr : st.raw_handle with
  | none => rw [hr] at h; simp at h
  | some n =>
    rw [hr] at h
    simp only [decide_eq_true_eq] at h
    refine ⟨n, rfl, h, ?_⟩
    unfold PS6000A.handle
    rw [hr]
    simp [h]

/-! ## Claim C8 -/

/-- C8: the handle accessor returns the stored handle exactly when it is
present and strictly positive; otherwise it raises a HandleError whose
message distinguishes never-opened (no stored handle), open-failed
(negative handle) and no-device-found (zero handle). -/
theorem C8_handle_guard (st : PS6000A) :
    (∀ h, st.raw_handle = some h → 0 < h → st.handle = .ok h)
    ∧ (st.raw_handle = none →
        st.handle = .error (.handleError none)
        ∧ picoHandleErrorKind none = .neverOpened)
    ∧ (∀ h, st.raw_handle = some h → h < 0 →
        st.handle = .error (.handleError (some h))
        ∧ picoHandleErrorKind (some h) = .openFailed)
    ∧ (st.raw_handle = some 0 →
        st.handle = .error (.handleError (some 0))
        ∧ picoHandleErrorKind (some 0) = .noDeviceFound) := by
  refine ⟨?_, ?_, ?_, ?_⟩
  · intro h hr hpos
    unfold PS6000A.handle
    rw [hr]
    simp [hpos]
  · intro hr
    constructor
    · unfold PS6000A.handle
      rw [hr]
    · rfl
  · intro h hr hneg
    constructor
    · unfold PS6000A.handle
      rw [hr]
      have : ¬(0 < h) := by omega
      simp [this]
    · unfold picoHandleErrorKind
      simp [hneg]
  · intro hr
    constructor
    · unfold PS6000A.handle
      rw [hr]
      norm_num
    · rfl

/-- Witness for C8 at concrete states. -/
theorem C8_handle_guard_witness :
    PS6000A.handle ⟨some 7, 0, []⟩ = .ok 7
    ∧ PS6000A.handle ⟨none, 0, []⟩ = .error (.handleError none)
    ∧ PS6000A.handle ⟨some (-3), 0, []⟩ = .error (.handleError (some (-3)))
    ∧ picoHandleErrorKind (some (-3)) = .openFailed
    ∧ PS6000A.handle ⟨some 0, 0, []⟩ = .error (.handleError (some 0)) := by
  refine ⟨?_, ?_, ?_, ?_, ?_⟩
  · exact (C8_handle_guard ⟨some 7, 0, []⟩).1 7 rfl (by norm_num)
  · exact ((C8_handle_guard ⟨none, 0, []⟩).2.1 rfl).1
  · exact ((C8_handle_guard ⟨some (-3), 0, []⟩).2.2.1 (-3) rfl (by norm_num)).1
  · exact ((C8_handle_guard ⟨some (-3), 0, []⟩).2.2.1 (-3) rfl (by norm_num)).2
  · exact ((C8_handle_guard ⟨some 0, 0, []⟩).2.2.2 rfl).1


/-! ## Claim C2 -/

/-- C2: verifying the OK status never raises; any other status raises a
StatusError carrying exactly that status; and in the streaming poll,
WAITING_FOR_DATA_BUFFERS is returned as the boolean full flag (with
`last_status` still recorded) while every other non-OK status raises. -/
theorem C2_status_translation (st : PS6000A) (status : PicoStatus)
    (infoOut : List FilledInfo) (trigOut : List FilledTriggerInfo)
    (sdi : List StreamingDataInfo) (hvalid : handleValid st = true) :
    ((st.verify_status PicoStatus.OK).2 = none)
    ∧ (status ≠ PicoStatus.OK →
        (st.verify_status status).2 = some (.statusError status))
    ∧ (st.get_streaming_latest_values PicoStatus.WAITING_FOR_DATA_BUFFERS
        infoOut trigOut (some sdi)
        = .ok ((true, infoOut, trigOut),
            { st with last_status := PicoStatus.WAITING_FOR_DATA_BUFFERS }))
    ∧ (st.get_streaming_latest_values PicoStatus.OK infoOut trigOut (some sdi)
        = .ok ((false, infoOut, trigOut),
            { st with last_status := PicoStatus.OK }))
    ∧ (status ≠ PicoStatus.OK → status ≠ PicoStatus.WAITING_FOR_DATA_BUFFERS →
        st.get_streaming_latest_values status infoOut trigOut (some sdi)
          = .error (.statusError status, { st with last_status := status })) := by
  obtain ⟨n, hrn, hn, hh⟩ := handle_ok_of_valid hvalid
  refine ⟨?_, ?_, ?_, ?_, ?_⟩
  · simp [PS6000A.verify_status]
  · intro hs
    simp [PS6000A.verify_status, hs]
  · unfold PS6000A.get_streaming_latest_values
    rw [hh]
    simp [PicoStatus.WAITING_FOR_DATA_BUFFERS, PicoStatus.OK]
  · unfold PS6000A.get_streaming_latest_values
    rw [hh]
    simp [PicoStatus.WAITING_FOR_DATA_BUFFERS, PicoStatus.OK]
  · intro h1 h2
    unfold PS6000A.get_streaming_latest_values
    rw [hh]
    simp [h1, h2]

/-- Witness for C2 at a concrete open session. -/
theorem C2_status_translation_witness :
    (PS6000A.verify_status ⟨some 2, 0, []⟩ PicoStatus.OK).2 = none
    ∧ PS6000A.get_streaming_latest_values ⟨some 2, 0, []⟩
        PicoStatus.WAITING_FOR_DATA_BUFFERS [] [] (some [])
        = .ok ((true, [], []),
            ⟨some 2, PicoStatus.WAITING_FOR_DATA_BUFFERS, []⟩)
    ∧ (PS6000A.verify_status ⟨some 2, 0, []⟩ 3).2 = some (.statusError 3) :=
  ⟨(C2_status_translation ⟨some 2, 0, []⟩ 3 [] [] [] rfl).1,
    (C2_status_translation ⟨some 2, 0, []⟩ 3 [] [] [] rfl).2.2.1,
    (C2_status_translation ⟨some 2, 0, []⟩ 3 [] [] [] rfl).2.1
      (by norm_num [PicoStatus.OK])⟩


/-! ## Claim C5 -/

theorem wrap_found {w : CBWorld} {cb t : Nat}
    (h : pyFind w.attr cb = some t) : wrap_block_ready w cb = (t, w) := by
  unfold wrap_block_ready
  rw [h]

theorem wrap_new {w : CBWorld} {cb : Nat} (h : pyFind w.attr cb = none) :
    wrap_block_ready w cb
      = (w.fresh, ⟨w.attr ++ [(cb, w.fresh)], w.fresh + 1⟩) := by
  unfold wrap_block_ready
  rw [h]

/-- The hidden-attribute table stays well formed across wrapping. -/
theorem wrap_block_ready_wf {w : CBWorld} (hwf : w.wf) (cb : Nat) :
    ((wrap_block_ready w cb).2).wf := by
  obtain ⟨hlt, hpw⟩ := hwf
  cases hf : pyFind w.attr cb with
  | some t =>
    rw [wrap_found hf]
    exact ⟨hlt, hpw⟩
  | none =>
    rw [wrap_new hf]
    constructor
    · intro p hp
      simp only [List.mem_append, List.mem_singleton] at hp
      rcases hp with hp | hp
      · exact Nat.lt_trans (hlt p hp) (Nat.lt_succ_self _)
      · rw [hp]
        exact Nat.lt_succ_self _
    · rw [List.pairwise_append]
      refine ⟨hpw, List.pairwise_singleton _ _, ?_⟩
      intro p hp q hq
      simp only [List.mem_singleton] at hq
      rw [hq]
      exact Nat.ne_of_lt (hlt p hp)

/-- C5: wrapping the same callback object twice returns the identical
trampoline both times (and leaves the attribute table untouched the second
time), while wrapping a distinct callback yields a distinct trampoline;
the retained trampoline is keyed by the identity of the original callback
object through its hidden attribute. -/
theorem C5_trampoline_identity (w : CBWorld) (cb1 cb2 : Nat) (hwf : w.wf) :
    (wrap_block_ready (wrap_block_ready w cb1).2 cb1
      = ((wrap_block_ready w cb1).1, (wrap_block_ready w cb1).2))
    ∧ (cb1 ≠ cb2 →
        (wrap_block_ready (wrap_block_ready w cb1).2 cb2).1
          ≠ (wrap_block_ready w cb1).1) := by
  obtain ⟨hlt, hpw⟩ := hwf
  constructor
  · cases hf : pyFind w.attr cb1 with
    | some t =>
      rw [wrap_found hf]
      exact wrap_found hf
    | none =>
      rw [wrap_new hf]
      have hfound : pyFind (w.attr ++ [(cb1, w.fresh)]) cb1 = some w.fresh := by
        rw [pyFind_append, hf, pyFind_single]
        simp
      rw [wrap_found hfound]
  · intro hne
    cases hf1 : pyFind w.attr cb1 with
    | some t1 =>
      rw [wrap_found hf1]
      cases hf2 : pyFind w.attr cb2 with
      | some t2 =>
        rw [wrap_found hf2]
        have hm1 := pyFind_mem hf1
        have hm2 := pyFind_mem hf2
        have hxy : ((cb1, t1) : Nat × Nat) ≠ (cb2, t2) := fun he =>
          hne (congrArg Prod.fst he)
        have hR := List.Pairwise.forall
          (R := fun p q : Nat × Nat => p.2 ≠ q.2)
          (fun a b hab he => hab he.symm) hpw hm1 hm2 hxy
        exact fun he => hR he.symm
      | none =>
        rw [wrap_new hf2]
        have ht1 : t1 < w.fresh := hlt _ (pyFind_mem hf1)
        exact fun he => absurd he.symm (Nat.ne_of_lt ht1)
    | none =>
      rw [wrap_new hf1]
      have hf2 : pyFind ((⟨w.attr ++ [(cb1, w.fresh)], w.fresh + 1⟩ :
          CBWorld).attr) cb2
          = pyFind w.attr cb2 := by
        rw [pyFind_append]
        cases hc : pyFind w.attr cb2 with
        | some v => rfl
        | none =>
          rw [pyFind_single]
          simp [hne]
      cases hc : pyFind w.attr cb2 with
      | some t2 =>
        rw [wrap_found (by rw [hf2, hc])]
        have ht2 : t2 < w.fresh := hlt _ (pyFind_mem hc)
        exact Nat.ne_of_lt ht2
      | none =>
        rw [wrap_new (by rw [hf2, hc])]
        simp

/-- Witness for C5, starting from the empty attribute world. -/
theorem C5_trampoline_identity_witness :
    (wrap_block_ready (wrap_block_ready ⟨[], 0⟩ 10).2 10
      = ((wrap_block_ready ⟨[], 0⟩ 10).1, (wrap_block_ready ⟨[], 0⟩ 10).2))
    ∧ (wrap_block_ready (wrap_block_ready ⟨[], 0⟩ 10).2 11).1
      ≠ (wrap_block_ready ⟨[], 0⟩ 10).1 :=
  ⟨(C5_trampoline_identity ⟨[], 0⟩ 10 11
      (by constructor <;> simp [CBWorld.wf])).1,
    (C5_trampoline_identity ⟨[], 0⟩ 10 11
      (by constructor <;> simp [CBWorld.wf])).2 (by norm_num)⟩


/-! ## Registry operation characterizations -/

/-- When the low-level wrapper succeeds, the status it returns is exactly
the driver's status. -/
theorem ll_ok_status {devStatus : PicoStatus} {bmax bmin : Option CArray}
    {dt : PicoDataType} {action : Nat} {status : PicoStatus}
    (h : ll_set_data_buffers devStatus bmax bmin dt action = .ok status) :
    status = devStatus := by
  cases bmax with
  | none =>
    cases bmin with
    | none =>
      unfold ll_set_data_buffers at h
      simp at h
      exact h.symm
    | some mn =>
      unfold ll_set_data_buffers at h
      simp at h
  | some m =>
    cases bmin with
    | none =>
      unfold ll_set_data_buffers at h
      by_cases h1 : m.byteSize = m.len * dt.ctypeSize
      · simp [h1] at h
        exact h.symm
      · simp [h1] at h
    | some mn =>
      unfold ll_set_data_buffers at h
      by_cases h1 : m.byteSize = m.len * dt.ctypeSize
      · by_cases h2 : m.len = mn.len
        · by_cases h3 : mn.byteSize = mn.len * dt.ctypeSize
          · simp [h1, h2, h3] at h
            exact h.symm
          · simp [h1, h2, h3] at h
        · simp [h1, h2] at h
      · simp [h1] at h

/-- Characterization of a successful clear_data_buffers run. -/
theorem clear_ok_char {st st2 : PS6000A} {devStatus : PicoStatus}
    {ch : PicoChannel} {dt : PicoDataType} {seg : Nat}
    (h : st.clear_data_buffers devStatus ch dt seg = .ok st2) :
    devStatus = PicoStatus.OK
    ∧ st2.buffers = pyModify st.buffers ⟨ch, dt, seg⟩ [] (fun _ => [])
    ∧ st2.raw_handle = st.raw_handle := by
  unfold PS6000A.clear_data_buffers at h
  cases hh : st.handle with
  | error e =>
    rw [hh] at h
    exact absurd h (by simp)
  | ok n =>
    rw [hh] at h
    have hll : ll_set_data_buffers devStatus none none dt PicoAction.CLEAR_ALL
        = .ok devStatus := rfl
    rw [hll] at h
    dsimp only at h
    by_cases hs : devStatus = PicoStatus.OK
    · subst hs
      have hv : PS6000A.verify_status st PicoStatus.OK
          = ({ st with last_status := PicoStatus.OK }, none) := by
        unfold PS6000A.verify_status
        rw [if_pos rfl]
      rw [hv] at h
      simp only [Except.ok.injEq] at h
      rw [← h]
      exact ⟨rfl, rfl, rfl⟩
    · have hv : PS6000A.verify_status st devStatus
          = ({ st with last_status := devStatus },
              some (.statusError devStatus)) := by
        unfold PS6000A.verify_status
        rw [if_neg hs]
      rw [hv] at h
      exact absurd h (by simp)

/-! ## Claim C6 -/

/-- C6: a successful register (set_data_buffers) followed by a successful
clear (clear_data_buffers) of that same class leaves the per-class
registry query empty. -/
theorem C6_register_then_clear (st st2 st3 : PS6000A) (s1 s2 : PicoStatus)
    (bmax : Buffer) (bmin : Option Buffer) (co : Bool)
    (hreg : st.set_data_buffers s1 bmax bmin co = .ok st2)
    (hclr : st2.clear_data_buffers s2 bmax.channel bmax.datatype bmax.segment
      = .ok st3) :
    (st3.get_existing_data_buffers bmax.channel bmax.datatype bmax.segment).1
      = [] := by
  obtain ⟨-, hbuf, -⟩ := clear_ok_char hclr
  have hfind : pyFind st3.buffers ⟨bmax.channel, bmax.datatype, bmax.segment⟩
      = some [] := by
    rw [hbuf]
    exact pyFind_pyModify_self st2.buffers
      ⟨bmax.channel, bmax.datatype, bmax.segment⟩ [] (fun _ => [])
  simp [PS6000A.get_existing_data_buffers, pyGetD, hfind]

/-- Witness for C6: a concrete register/clear run on an open session. -/
theorem C6_register_then_clear_witness :
    (PS6000A.get_existing_data_buffers
      ⟨some 1, PicoStatus.OK, [(⟨0, .INT16_T, 0⟩, [])]⟩ 0 .INT16_T 0).1
      = [] :=
  C6_register_then_clear
    ⟨some 1, PicoStatus.OK, []⟩
    ⟨some 1, PicoStatus.OK,
      [(⟨0, .INT16_T, 0⟩, [⟨⟨1, 4, 2⟩, 0, .INT16_T, 0, 0, .MAX⟩])]⟩
    ⟨some 1, PicoStatus.OK, [(⟨0, .INT16_T, 0⟩, [])]⟩
    PicoStatus.OK PicoStatus.OK
    ⟨⟨1, 4, 2⟩, 0, .INT16_T, 0, 0, .MAX⟩ none false
    rfl rfl

/-! ## Claim C7 -/

/-- C7: a successful clear of a class empties the registry set for exactly
that class and leaves every other class's registry set unchanged. -/
theorem C7_clear_frame (st st2 : PS6000A) (s : PicoStatus)
    (ch : PicoChannel) (dt : PicoDataType) (seg : Nat)
    (h : st.clear_data_buffers s ch dt seg = .ok st2) :
    pyFind st2.buffers ⟨ch, dt, seg⟩ = some []
    ∧ ∀ bc2 : BufferClass, bc2 ≠ ⟨ch, dt, seg⟩ →
        pyFind st2.buffers bc2 = pyFind st.buffers bc2 := by
  obtain ⟨-, hbuf, -⟩ := clear_ok_char h
  constructor
  · rw [hbuf]
    exact pyFind_pyModify_self st.buffers ⟨ch, dt, seg⟩ [] (fun _ => [])
  · intro bc2 hne
    rw [hbuf]
    exact pyFind_pyModify_other st.buffers ⟨ch, dt, seg⟩ bc2 [] (fun _ => []) hne

/-- Witness for C7: clearing one of two populated classes. -/
theorem C7_clear_frame_witness :
    pyFind (PS6000A.buffers
        ⟨some 1, PicoStatus.OK,
          [(⟨0, .INT8_T, 0⟩, []),
            (⟨1, .INT8_T, 0⟩, [⟨⟨9, 2, 1⟩, 1, .INT8_T, 0, 0, .MAX⟩])]⟩)
      ⟨0, .INT8_T, 0⟩ = some []
    ∧ pyFind (PS6000A.buffers
        ⟨some 1, PicoStatus.OK,
          [(⟨0, .INT8_T, 0⟩, []),
            (⟨1, .INT8_T, 0⟩, [⟨⟨9, 2, 1⟩, 1, .INT8_T, 0, 0, .MAX⟩])]⟩)
      ⟨1, .INT8_T, 0⟩
      = pyFind (PS6000A.buffers
        ⟨some 1, PicoStatus.OK,
          [(⟨0, .INT8_T, 0⟩, [⟨⟨8, 2, 1⟩, 0, .INT8_T, 0, 0, .MAX⟩]),
            (⟨1, .INT8_T, 0⟩, [⟨⟨9, 2, 1⟩, 1, .INT8_T, 0, 0, .MAX⟩])]⟩)
      ⟨1, .INT8_T, 0⟩ :=
  have h := C7_clear_frame
    ⟨some 1, PicoStatus.OK,
      [(⟨0, .INT8_T, 0⟩, [⟨⟨8, 2, 1⟩, 0, .INT8_T, 0, 0, .MAX⟩]),
        (⟨1, .INT8_T, 0⟩, [⟨⟨9, 2, 1⟩, 1, .INT8_T, 0, 0, .MAX⟩])]⟩
    ⟨some 1, PicoStatus.OK,
      [(⟨0, .INT8_T, 0⟩, []),
        (⟨1, .INT8_T, 0⟩, [⟨⟨9, 2, 1⟩, 1, .INT8_T, 0, 0, .MAX⟩])]⟩
    PicoStatus.OK 0 .INT8_T 0 rfl
  ⟨h.1, h.2 ⟨1, .INT8_T, 0⟩ (by decide)⟩


/-! ## Claim C10 -/

/-- C10: when the device boundary reports a non-success status, both
registry-mutating operations raise and leave the buffers registry exactly
as it was: the registry is only mutated after status verification
succeeds. -/
theorem C10_registry_atomic_on_error (st : PS6000A) (devStatus : PicoStatus)
    (hbad : devStatus ≠ PicoStatus.OK) :
    (∀ bmax bmin co, ∃ e st2,
        st.set_data_buffers devStatus bmax bmin co = .error (e, st2)
          ∧ st2.buffers = st.buffers)
    ∧ (∀ ch dt seg, ∃ e st2,
        st.clear_data_buffers devStatus ch dt seg = .error (e, st2)
          ∧ st2.buffers = st.buffers) := by
  have hv : PS6000A.verify_status st devStatus
      = ({ st with last_status := devStatus },
          some (.statusError devStatus)) := by
    unfold PS6000A.verify_status
    rw [if_neg hbad]
  constructor
  · intro bmax bmin co
    unfold PS6000A.set_data_buffers
    cases bmin with
    | none =>
      dsimp only
      cases hh : st.handle with
      | error e =>
        exact ⟨e, st, rfl, rfl⟩
      | ok n =>
        cases hll : ll_set_data_buffers devStatus (some bmax.buffer) none
            bmax.datatype
            (if co then PicoAction.ADD ||| PicoAction.CLEAR_ALL
              else PicoAction.ADD) with
        | error e =>
          exact ⟨e, st, rfl, rfl⟩
        | ok status =>
          have hsd := ll_ok_status hll
          subst hsd
          dsimp only
          rw [hv]
          exact ⟨.statusError status, { st with last_status := status },
            rfl, rfl⟩
    | some bmin =>
      dsimp only
      by_cases h1 : bmin.buffer_class = bmax.buffer_class
      · rw [if_neg (not_not_intro h1)]
        by_cases h2 : bmin.downsampling_mode = bmax.downsampling_mode
        · rw [if_neg (not_not_intro h2)]
          dsimp only
          cases hh : st.handle with
          | error e =>
            exact ⟨e, st, rfl, rfl⟩
          | ok n =>
            cases hll : ll_set_data_buffers devStatus (some bmax.buffer)
                (some bmin.buffer) bmax.datatype
                (if co then PicoAction.ADD ||| PicoAction.CLEAR_ALL
                  else PicoAction.ADD) with
            | error e =>
              exact ⟨e, st, rfl, rfl⟩
            | ok status =>
              have hsd := ll_ok_status hll
              subst hsd
              dsimp only
              rw [hv]
              exact ⟨.statusError status,
                { st with last_status := status }, rfl, rfl⟩
        · rw [if_pos h2]
          exact ⟨_, st, rfl, rfl⟩
      · rw [if_pos h1]
        exact ⟨_, st, rfl, rfl⟩
  · intro ch dt seg
    unfold PS6000A.clear_data_buffers
    cases hh : st.handle with
    | error e =>
      exact ⟨e, st, rfl, rfl⟩
    | ok n =>
      have hll : ll_set_data_buffers devStatus none none dt
          PicoAction.CLEAR_ALL = .ok devStatus := rfl
      rw [hll]
      dsimp only
      rw [hv]
      exact ⟨.statusError devStatus, { st with last_status := devStatus },
        rfl, rfl⟩

/-- Witness for C10 at a concrete failing device status. -/
theorem C10_registry_atomic_on_error_witness :
    (∃ e st2,
        PS6000A.set_data_buffers ⟨some 1, PicoStatus.OK, []⟩ 13
          ⟨⟨1, 4, 2⟩, 0, .INT16_T, 0, 0, .MAX⟩ none false = .error (e, st2)
          ∧ st2.buffers = PS6000A.buffers ⟨some 1, PicoStatus.OK, []⟩)
    ∧ (∃ e st2,
        PS6000A.clear_data_buffers ⟨some 1, PicoStatus.OK, []⟩ 13 0
          .INT16_T 0 = .error (e, st2)
          ∧ st2.buffers = PS6000A.buffers ⟨some 1, PicoStatus.OK, []⟩) :=
  ⟨(C10_registry_atomic_on_error ⟨some 1, PicoStatus.OK, []⟩ 13
      (by norm_num [PicoStatus.OK])).1 ⟨⟨1, 4, 2⟩, 0, .INT16_T, 0, 0, .MAX⟩
      none false,
    (C10_registry_atomic_on_error ⟨some 1, PicoStatus.OK, []⟩ 13
      (by norm_num [PicoStatus.OK])).2 0 .INT16_T 0⟩


/-! ## Claim C9 (corrected) -/

/-- C9 counterexample: with a valid handle held (value 5), the
asynchronous open entry point only logs the warning; it issues no
close-unit call and the stored handle survives untouched, so the claim
that every open entry point first closes the existing session is false. -/
theorem C9_counterexample :
    (PS6000A.open_unit_async ⟨some 5, PicoStatus.OK, []⟩ PicoStatus.OK true).1
      = [Ev.warnAlreadyOpen, Ev.callOpenUnitAsync]
    ∧ Ev.callCloseUnit
      ∉ (PS6000A.open_unit_async ⟨some 5, PicoStatus.OK, []⟩
          PicoStatus.OK true).1
    ∧ (PS6000A.open_unit_async ⟨some 5, PicoStatus.OK, []⟩ PicoStatus.OK
        true).2
      = .ok (true, ⟨some 5, PicoStatus.OK, []⟩)
    ∧ handleValid ⟨some 5, PicoStatus.OK, []⟩ = true := by
  refine ⟨rfl, by decide, rfl, rfl⟩

/-- C9 amended: with a valid handle held, open_unit and open_unit_progress
warn and close the existing session before issuing their open call, while
open_unit_async only emits the warning and proceeds without closing,
leaving the stored handle untouched until the open completes. -/
theorem C9_open_flows_amended (st : PS6000A) (hvalid : handleValid st = true)
    (closeStatus openStatus progStatus devStatus : PicoStatus)
    (devHandle : Int) (status2 complete : Bool) :
    ((st.open_unit closeStatus openStatus devHandle).1.take 2
      = [Ev.warnAlreadyOpen, Ev.callCloseUnit])
    ∧ ((st.open_unit_progress closeStatus progStatus devHandle complete).1.take 2
      = [Ev.warnAlreadyOpen, Ev.callCloseUnit])
    ∧ ((st.open_unit_async devStatus status2).1
      = [Ev.warnAlreadyOpen, Ev.callOpenUnitAsync])
    ∧ Ev.callCloseUnit ∉ (st.open_unit_async devStatus status2).1
    ∧ (∀ r, (st.open_unit_async devStatus status2).2 = .ok r →
        r.2.raw_handle = st.raw_handle) := by
  refine ⟨?_, ?_, ?_, ?_, ?_⟩
  · unfold PS6000A.open_unit
    rw [if_pos hvalid]
    cases st.close_unit closeStatus <;> rfl
  · unfold PS6000A.open_unit_progress
    rw [if_pos hvalid]
    cases st.close_unit closeStatus <;> rfl
  · unfold PS6000A.open_unit_async
    rw [if_pos hvalid]
    dsimp only
    cases hv : (st.verify_status devStatus).2 <;> rfl
  · unfold PS6000A.open_unit_async
    rw [if_pos hvalid]
    dsimp only
    cases hv : (st.verify_status devStatus).2 <;> simp
  · intro r hr
    unfold PS6000A.open_unit_async at hr
    rw [if_pos hvalid] at hr
    unfold PS6000A.verify_status at hr
    by_cases hs : devStatus = PicoStatus.OK
    · rw [if_pos hs] at hr
      dsimp only at hr
      simp only [Except.ok.injEq] at hr
      rw [← hr]
    · rw [if_neg hs] at hr
      dsimp only at hr
      exact absurd hr (by simp)

/-- Witness for C9 amended, on a session holding handle 5. -/
theorem C9_open_flows_amended_witness :
    ((PS6000A.open_unit ⟨some 5, PicoStatus.OK, []⟩ PicoStatus.OK
        PicoStatus.OK 6).1.take 2 = [Ev.warnAlreadyOpen, Ev.callCloseUnit])
    ∧ ((PS6000A.open_unit_async ⟨some 5, PicoStatus.OK, []⟩ PicoStatus.OK
        true).1 = [Ev.warnAlreadyOpen, Ev.callOpenUnitAsync]) :=
  ⟨(C9_open_flows_amended ⟨some 5, PicoStatus.OK, []⟩ rfl PicoStatus.OK
      PicoStatus.OK PicoStatus.OK PicoStatus.OK 6 true true).1,
    (C9_open_flows_amended ⟨some 5, PicoStatus.OK, []⟩ rfl PicoStatus.OK
      PicoStatus.OK PicoStatus.OK PicoStatus.OK 6 true true).2.2.1⟩


/-! ## Claim C1 (code defect) -/

/-- C1: evaluation of the pairing method at a registry holding one MAX and
one MIN buffer of the same channel/datatype/segment/downsampling mode.
The source writes both roles into the MAX slot (ps6000a.py line 1119), so
the result is a single pair carrying the MIN buffer in the MAX slot and
None in the MIN slot: the MAX buffer is lost and the MIN buffer is never
paired, contradicting the claimed pairing contract. -/
theorem C1_pairs_loses_buffers :
    PS6000A.get_existing_data_buffer_pairs
      ⟨some 1, PicoStatus.OK,
        [(⟨0, .INT16_T, 0⟩,
          [⟨⟨100, 8, 2⟩, 0, .INT16_T, 0, 1, .MAX⟩,
            ⟨⟨200, 8, 2⟩, 0, .INT16_T, 0, 1, .MIN⟩])]⟩
      0 .INT16_T 0
      = [(⟨⟨200, 8, 2⟩, 0, .INT16_T, 0, 1, .MIN⟩, none)] := by
  rfl

/-! ## Claim C3 -/

/-- C3: registering a MIN buffer that differs from its MAX buffer in
buffer class, downsampling mode or length fails with a local validation
error (ValueError from ps6000a.py for class/mode, TypeError from
functions.py for length) and returns the session state unchanged, so
neither buffer becomes visible to any subsequent registry query. -/
theorem C3_min_max_validation (st : PS6000A) (devStatus : PicoStatus)
    (bmax bmin : Buffer) (co : Bool)
    (hszmax : bmax.buffer.elemSize = bmax.datatype.ctypeSize)
    (hvalid : handleValid st = true)
    (hdiff : bmin.buffer_class ≠ bmax.buffer_class
      ∨ bmin.downsampling_mode ≠ bmax.downsampling_mode
      ∨ bmin.buffer.len ≠ bmax.buffer.len) :
    ∃ e, st.set_data_buffers devStatus bmax (some bmin) co = .error (e, st)
      ∧ e.isValidation = true := by
  obtain ⟨n, hrn, hn, hh⟩ := handle_ok_of_valid hvalid
  unfold PS6000A.set_data_buffers
  dsimp only
  by_cases h1 : bmin.buffer_class = bmax.buffer_class
  · rw [if_neg (not_not_intro h1)]
    by_cases h2 : bmin.downsampling_mode = bmax.downsampling_mode
    · rw [if_neg (not_not_intro h2)]
      dsimp only
      rw [hh]
      have hlen : bmin.buffer.len ≠ bmax.buffer.len := by
        rcases hdiff with hc | hm | hl
        · exact absurd h1 hc
        · exact absurd h2 hm
        · exact hl
      have hbs : bmax.buffer.byteSize
          = bmax.buffer.len * bmax.datatype.ctypeSize := by
        unfold CArray.byteSize
        rw [hszmax]
      have hll : ll_set_data_buffers devStatus (some bmax.buffer)
          (some bmin.buffer) bmax.datatype
          (if co then PicoAction.ADD ||| PicoAction.CLEAR_ALL
            else PicoAction.ADD)
          = .error (.typeError "Buffer min vs. max size mismatch.") := by
        unfold ll_set_data_buffers
        dsimp only
        rw [if_neg (not_not_intro hbs), if_pos (Ne.symm hlen)]
        simp
      rw [hll]
      exact ⟨.typeError "Buffer min vs. max size mismatch.", rfl, rfl⟩
    · rw [if_pos h2]
      exact ⟨_, rfl, rfl⟩
  · rw [if_pos h1]
    exact ⟨_, rfl, rfl⟩

/-- Witness for C3: a MIN buffer of 4 samples against a MAX buffer of 8
samples, same class and mode, on an open session. -/
theorem C3_min_max_validation_witness :
    ∃ e, PS6000A.set_data_buffers ⟨some 1, PicoStatus.OK, []⟩ PicoStatus.OK
        ⟨⟨1, 8, 2⟩, 0, .INT16_T, 0, 1, .MAX⟩
        (some ⟨⟨2, 4, 2⟩, 0, .INT16_T, 0, 1, .MIN⟩) false
        = .error (e, ⟨some 1, PicoStatus.OK, []⟩)
      ∧ e.isValidation = true :=
  C3_min_max_validation ⟨some 1, PicoStatus.OK, []⟩ PicoStatus.OK
    ⟨⟨1, 8, 2⟩, 0, .INT16_T, 0, 1, .MAX⟩
    ⟨⟨2, 4, 2⟩, 0, .INT16_T, 0, 1, .MIN⟩
    false rfl rfl (Or.inr (Or.inr (by decide)))


/-! ## Claim C4 (corrected) -/

/-- C4 counterexample, two parts.  First: the registry holds one buffer on
channel 0 with datatype INT8_T; querying with channel filter 1 and
datatype filter INT16_T makes the loop add the buffer once and then try to
remove it twice, so the second `set.remove` raises KeyError instead of
returning the (empty) matching set.  Second: the per-class read of an
unregistered class inserts a fresh empty entry into the defaultdict
registry, so the registry mapping is mutated by a query. -/
theorem C4_counterexample :
    PS6000A.get_all_existing_data_buffers
      ⟨some 1, PicoStatus.OK,
        [(⟨0, .INT8_T, 0⟩, [⟨⟨3, 2, 1⟩, 0, .INT8_T, 0, 0, .MAX⟩])]⟩
      (some 1) (some .INT16_T) none = .error .keyError
    ∧ (PS6000A.get_existing_data_buffers PS6000A.mkInit 0 .INT8_T 0).2.buffers
      ≠ PS6000A.mkInit.buffers := by
  exact ⟨rfl, by decide⟩

theorem matchesFilters_fails (channel : Option PicoChannel)
    (data_type : Option PicoDataType) (segment : Option Nat) (b : Buffer) :
    matchesFilters channel data_type segment b = true
      ↔ (failsChannel channel b = false ∧ failsDatatype data_type b = false
          ∧ failsSegment segment b = false) := by
  unfold matchesFilters
  cases failsChannel channel b <;> cases failsDatatype data_type b <;>
    cases failsSegment segment b <;> simp

/-- At most one filter failing means: if one fails, the others pass. -/
theorem failCount_unique (channel : Option PicoChannel)
    (data_type : Option PicoDataType) (segment : Option Nat) (b : Buffer)
    (hcount : failCount channel data_type segment b ≤ 1) :
    (failsChannel channel b = true →
      failsDatatype data_type b = false ∧ failsSegment segment b = false)
    ∧ (failsDatatype data_type b = true →
      failsChannel channel b = false ∧ failsSegment segment b = false)
    ∧ (failsSegment segment b = true →
      failsChannel channel b = false ∧ failsDatatype data_type b = false) := by
  unfold failCount at hcount
  cases hc1 : failsChannel channel b <;>
    cases hc2 : failsDatatype data_type b <;>
    cases hc3 : failsSegment segment b <;> simp_all

/-- Removing an element just added to a set it was not in restores it. -/
theorem PSet.remove_add_fresh (out : List Buffer) (b : Buffer)
    (hout : ∀ x ∈ out, x.pyBeq b = false) :
    PSet.remove (PSet.add out b) b = .ok out := by
  have hpm : pmem b out = false := by
    unfold pmem
    rw [Bool.eq_false_iff]
    intro hcon
    rw [List.any_eq_true] at hcon
    obtain ⟨x, hx, hxb⟩ := hcon
    rw [hout x hx] at hxb
    exact absurd hxb (by decide)
  unfold PSet.add
  rw [if_neg (by simp [hpm])]
  unfold PSet.remove
  rw [if_pos (by rw [pmem_append, pmem_single, Buffer.pyBeq_refl, Bool.or_true])]
  congr 1
  rw [List.filter_append]
  have h1 : out.filter (fun x => !(x.pyBeq b)) = out := by
    apply List.filter_eq_self.mpr
    intro x hx
    rw [hout x hx]
    rfl
  have h2 : [b].filter (fun x => !(x.pyBeq b)) = ([] : List Buffer) := by
    simp [Buffer.pyBeq_refl]
  rw [h1, h2, List.append_nil]

/-- A buffer passing every filter is just added by the loop body. -/
theorem gaedbStep_matching (channel : Option PicoChannel)
    (data_type : Option PicoDataType) (segment : Option Nat)
    (out : List Buffer) (b : Buffer)
    (hm : matchesFilters channel data_type segment b = true) :
    gaedbStep channel data_type segment out b = .ok (PSet.add out b) := by
  obtain ⟨hc, hd, hs⟩ :=
    (matchesFilters_fails channel data_type segment b).mp hm
  unfold gaedbStep
  rw [hc, hd, hs]
  rfl

/-- A buffer failing exactly one filter is added and then removed,
leaving the output set as it was. -/
theorem gaedbStep_onefail (channel : Option PicoChannel)
    (data_type : Option PicoDataType) (segment : Option Nat)
    (out : List Buffer) (b : Buffer)
    (hm : matchesFilters channel data_type segment b = false)
    (hcount : failCount channel data_type segment b ≤ 1)
    (hout : ∀ x ∈ out, x.pyBeq b = false) :
    gaedbStep channel data_type segment out b = .ok out := by
  have hrm := PSet.remove_add_fresh out b hout
  have huniq := failCount_unique channel data_type segment b hcount
  have hrem1 : removeIf true (.ok (PSet.add out b)) b = .ok out := by
    unfold removeIf
    simp [hrm]
    rfl
  unfold gaedbStep
  cases hc : failsChannel channel b with
  | true =>
    obtain ⟨hd, hs⟩ := huniq.1 hc
    rw [hd, hs, hrem1]
    rfl
  | false =>
    have h0 : removeIf false (.ok (PSet.add out b)) b = .ok (PSet.add out b) :=
      rfl
    cases hd : failsDatatype data_type b with
    | true =>
      obtain ⟨-, hs⟩ := huniq.2.1 hd
      rw [hs, h0, hrem1]
      rfl
    | false =>
      cases hs : failsSegment segment b with
      | true =>
        rw [h0, h0, hrem1]
      | false =>
        exfalso
        have hmt := (matchesFilters_fails channel data_type segment b).mpr
          ⟨hc, hd, hs⟩
        rw [hm] at hmt
        exact absurd hmt (by decide)

/-- Invariant proof of the query loop: when every remaining buffer fails
at most one filter and the accumulated output contains only matching
buffers, the fold succeeds and its output holds exactly the matching
buffers seen so far. -/
theorem gaedb_fold (channel : Option PicoChannel)
    (data_type : Option PicoDataType) (segment : Option Nat)
    (l : List Buffer) (out : List Buffer)
    (hl : ∀ b ∈ l, failCount channel data_type segment b ≤ 1)
    (hout : ∀ x ∈ out, matchesFilters channel data_type segment x = true) :
    ∃ res, l.foldlM (gaedbStep channel data_type segment) out = .ok res
      ∧ (∀ x ∈ res, matchesFilters channel data_type segment x = true)
      ∧ (∀ b, pmem b res
          = (pmem b out
            || (pmem b l && matchesFilters channel data_type segment b))) := by
  induction l generalizing out with
  | nil =>
    refine ⟨out, rfl, hout, ?_⟩
    intro b
    simp [pmem_nil]
  | cons b rest ih =>
    have hb := hl b (List.mem_cons_self b rest)
    have hrest : ∀ x ∈ rest, failCount channel data_type segment x ≤ 1 :=
      fun x hx => hl x (List.mem_cons_of_mem b hx)
    cases hm : matchesFilters channel data_type segment b with
    | true =>
      have hstep := gaedbStep_matching channel data_type segment out b hm
      have hout2 : ∀ x ∈ PSet.add out b,
          matchesFilters channel data_type segment x = true := by
        intro x hx
        unfold PSet.add at hx
        by_cases hpm : pmem b out = true
        · rw [if_pos hpm] at hx
          exact hout x hx
        · rw [if_neg hpm] at hx
          rcases List.mem_append.mp hx with hx1 | hx2
          · exact hout x hx1
          · rw [List.mem_singleton] at hx2
            rw [hx2]
            exact hm
      obtain ⟨res, hfold, hres, hmem⟩ := ih (PSet.add out b) hrest hout2
      refine ⟨res, ?_, hres, ?_⟩
      · rw [List.foldlM_cons, hstep]
        exact hfold
      · intro x
        rw [hmem x, pmem_add, pmem_cons]
        cases hbx : b.pyBeq x with
        | true =>
          have hmx : matchesFilters channel data_type segment x = true := by
            rw [← matchesFilters_congr channel data_type segment hbx]
            exact hm
          rw [hmx]
          simp
        | false => simp
    | false =>
      have hout_b : ∀ x ∈ out, x.pyBeq b = false := by
        intro x hx
        cases hxb : x.pyBeq b with
        | false => rfl
        | true =>
          exfalso
          have hcg := matchesFilters_congr channel data_type segment hxb
          rw [hout x hx, hm] at hcg
          exact absurd hcg (by decide)
      have hstep := gaedbStep_onefail channel data_type segment out b hm hb
        hout_b
      obtain ⟨res, hfold, hres, hmem⟩ := ih out hrest hout
      refine ⟨res, ?_, hres, ?_⟩
      · rw [List.foldlM_cons, hstep]
        exact hfold
      · intro x
        rw [hmem x, pmem_cons]
        cases hbx : b.pyBeq x with
        | true =>
          have hmx : matchesFilters channel data_type segment x = false := by
            rw [← matchesFilters_congr channel data_type segment hbx]
            exact hm
          rw [hmx]
          simp
        | false => simp

/-- C4 amended: provided every registered buffer fails at most one of the
given filters, the filtered query succeeds and returns exactly the
registered buffers matching every given filter (a buffer failing two or
more filters instead raises KeyError, see the counterexample); the source
performs no registry mutation in this query.  The per-class query returns
the stored set when the class is registered, and otherwise returns an
empty result while inserting a fresh empty entry for the class into the
registry mapping (defaultdict auto-vivification). -/
theorem C4_queries_amended (st : PS6000A) (channel : Option PicoChannel)
    (data_type : Option PicoDataType) (segment : Option Nat)
    (ch0 : PicoChannel) (dt0 : PicoDataType) (seg0 : Nat)
    (hone : ∀ b ∈ st.allBuffers, failCount channel data_type segment b ≤ 1) :
    (∃ res, st.get_all_existing_data_buffers channel data_type segment
        = .ok res
      ∧ ∀ b, pmem b res
          = (pmem b st.allBuffers
            && matchesFilters channel data_type segment b))
    ∧ (∀ v, pyFind st.buffers ⟨ch0, dt0, seg0⟩ = some v →
        st.get_existing_data_buffers ch0 dt0 seg0 = (v, st))
    ∧ (pyFind st.buffers ⟨ch0, dt0, seg0⟩ = none →
        (st.get_existing_data_buffers ch0 dt0 seg0).1 = []
        ∧ (st.get_existing_data_buffers ch0 dt0 seg0).2.buffers
            = st.buffers ++ [(⟨ch0, dt0, seg0⟩, [])]) := by
  refine ⟨?_, ?_, ?_⟩
  · obtain ⟨res, hfold, hres, hmem⟩ :=
      gaedb_fold channel data_type segment st.allBuffers [] hone
        (fun x hx => absurd hx (List.not_mem_nil x))
    refine ⟨res, hfold, ?_⟩
    intro b
    rw [hmem b, pmem_nil]
    simp
  · intro v hv
    unfold PS6000A.get_existing_data_buffers pyGetD
    dsimp only
    rw [hv]
  · intro hv
    unfold PS6000A.get_existing_data_buffers pyGetD
    dsimp only
    rw [hv]
    exact ⟨rfl, rfl⟩

/-- Witness for C4 amended on a one-buffer registry with a single
channel filter, plus a per-class query of an unregistered class. -/
theorem C4_queries_amended_witness :
    (∃ res, PS6000A.get_all_existing_data_buffers
        ⟨some 1, PicoStatus.OK,
          [(⟨0, .INT8_T, 0⟩, [⟨⟨3, 2, 1⟩, 0, .INT8_T, 0, 0, .MAX⟩])]⟩
        (some 0) none none = .ok res
      ∧ ∀ b, pmem b res
          = (pmem b (PS6000A.allBuffers
              ⟨some 1, PicoStatus.OK,
                [(⟨0, .INT8_T, 0⟩, [⟨⟨3, 2, 1⟩, 0, .INT8_T, 0, 0, .MAX⟩])]⟩)
            && matchesFilters (some 0) none none b))
    ∧ ((PS6000A.get_existing_data_buffers
          ⟨some 1, PicoStatus.OK,
            [(⟨0, .INT8_T, 0⟩, [⟨⟨3, 2, 1⟩, 0, .INT8_T, 0, 0, .MAX⟩])]⟩
          9 .INT8_T 0).1 = []
        ∧ (PS6000A.get_existing_data_buffers
          ⟨some 1, PicoStatus.OK,
            [(⟨0, .INT8_T, 0⟩, [⟨⟨3, 2, 1⟩, 0, .INT8_T, 0, 0, .MAX⟩])]⟩
          9 .INT8_T 0).2.buffers
            = PS6000A.buffers
              ⟨some 1, PicoStatus.OK,
                [(⟨0, .INT8_T, 0⟩, [⟨⟨3, 2, 1⟩, 0, .INT8_T, 0, 0, .MAX⟩])]⟩
              ++ [(⟨9, .INT8_T, 0⟩, [])]) :=
  have h := C4_queries_amended
    ⟨some 1, PicoStatus.OK,
      [(⟨0, .INT8_T, 0⟩, [⟨⟨3, 2, 1⟩, 0, .INT8_T, 0, 0, .MAX⟩])]⟩
    (some 0) none none 9 .INT8_T 0 (by decide)
  ⟨h.1, h.2.2 rfl⟩

end PS6000ASpec
